import Mathlib

/-
Verification development for the CurrencyFlow currency-converter repository
(src/script.js and src/chart.js). The JavaScript is shallowly embedded:
JS numbers are modelled as rationals extended with NaN and the two
infinities, JS objects used as rate tables are modelled as association
lists over String keys, and the stateful parts (the rate snapshot owned
by script.js, the chart panel of chart.js) are modelled as explicit state
passing / step functions.
-/

namespace CurrencyFlow

/-- Model of a JavaScript number as produced by parseFloat and arithmetic:
either NaN, positive or negative Infinity, or a finite value (modelled as
an exact rational). -/
inductive JSNum where
  | nan : JSNum
  | inf : JSNum
  | ninf : JSNum
  | fin : ℚ → JSNum
deriving DecidableEq

/-- Model of the JS isNaN test on a parsed number. -/
def JSNum.isNaN : JSNum → Bool
  | .nan => true
  | _ => false

/-- Model of the JS comparison `amount <= 0`: false on NaN (all comparisons
with NaN are false), false on Infinity, true on -Infinity, and the rational
comparison on finite values. -/
def JSNum.jsLe0 : JSNum → Bool
  | .nan => false
  | .inf => false
  | .ninf => true
  | .fin q => decide (q ≤ 0)

/-- Numeric falsiness in JS: NaN and zero are falsy, every other number is
truthy. Used to model `parseFloat(...) || 1`. -/
def JSNum.falsy : JSNum → Bool
  | .nan => true
  | .fin q => decide (q = 0)
  | _ => false

/-- Multiplication of a JS number by a finite (rational) rate, as used in
`amount * rate`. -/
def jsMulQ : JSNum → ℚ → JSNum
  | .nan, _ => .nan
  | .inf, r => if 0 < r then .inf else if r < 0 then .ninf else .nan
  | .ninf, r => if 0 < r then .ninf else if r < 0 then .inf else .nan
  | .fin a, r => .fin (a * r)

/-- Property lookup on a JS object modelled as an association list:
`obj[key]` is `undefined` (none) when the key is absent. -/
def lookupR {α : Type} (l : List (String × α)) (k : String) : Option α :=
  match l with
  | [] => none
  | (k', v) :: rest => if k' = k then some v else lookupR rest k

/-- Property assignment `obj[key] = v` on a JS object modelled as an
association list: overwrites in place if the key exists, otherwise appends
(matching JS insertion order of own properties). -/
def setKey (k : String) (v : ℚ) : List (String × ℚ) → List (String × ℚ)
  | [] => [(k, v)]
  | (k', v') :: rest => if k' = k then (k', v) :: rest else (k', v') :: setKey k v rest

/-- The decimal digits of n padded on the left with zeros to exactly f
digits, most significant first. -/
def padDigits (f n : ℕ) : List Char :=
  ((List.range f).reverse).map fun i => Char.ofNat (48 + n / 10 ^ i % 10)

/-- Model of Number.prototype.toFixed(f) on a finite value: per the
ECMAScript spec, the sign is split off first, then the magnitude is scaled
by 10^f and rounded to the nearest integer with ties going to the larger
integer, and the result is printed with exactly f fraction digits. The
rounded magnitude ⌊|q| * 10^f + 1/2⌋ is computed from the numerator and
denominator of q as (2 * |q.num| * 10^f + q.den) / (2 * q.den) in natural
division, which is the same number. -/
def jsToFixed (f : ℕ) (q : ℚ) : String :=
  let n : ℕ := (2 * q.num.natAbs * 10 ^ f + q.den) / (2 * q.den)
  (if q.num < 0 then "-" else "") ++ toString (n / 10 ^ f) ++ "." ++ String.mk (padDigits f (n % 10 ^ f))

/-- toFixed lifted to general JS numbers: NaN and the infinities print as
their JS string forms. -/
def jsToFixedN (f : ℕ) : JSNum → String
  | .nan => "NaN"
  | .inf => "Infinity"
  | .ninf => "-Infinity"
  | .fin q => jsToFixed f q

/-- Result of performConversion (script.js lines 160-180): either the
rate-unavailable sentinel written to the result field, or the converted
display state (result text, rate text, and the updated from/to code
labels), together with the raw convertedAmount value. -/
inductive PerformResult where
  | rateNotAvailable : PerformResult
  | converted : JSNum → String → String → String → String → PerformResult
deriving DecidableEq

/-- Embedding of performConversion (script.js lines 160-180):
`const rate = exchangeRates[toCurrency]; if (!rate) ...` — note that the
falsiness test treats both an absent key (undefined) and a stored rate of
exactly 0 as unavailable. Otherwise convertedAmount = amount * rate, the
result field shows convertedAmount.toFixed(4), and the rate info line
shows rate.toFixed(6) with the from/to code labels updated. -/
def performConversion (rates : List (String × ℚ)) (fromCurrency toCurrency : String)
    (amount : JSNum) : PerformResult :=
  match lookupR rates toCurrency with
  | none => .rateNotAvailable
  | some rate =>
      if rate = 0 then .rateNotAvailable
      else
        let convertedAmount := jsMulQ amount rate
        .converted convertedAmount (jsToFixedN 4 convertedAmount) (jsToFixed 6 rate)
          fromCurrency toCurrency

/-- Action taken by convertCurrency (script.js lines 129-152): the
invalid-amount sentinel written to the result field, a network fetch of
new rates for the selected from currency followed by conversion, or a
purely local conversion. -/
inductive ConvertAction where
  | invalidAmount : ConvertAction
  | fetchThenConvert : String → ConvertAction
  | localConvert : PerformResult → ConvertAction
deriving DecidableEq

/-- Embedding of convertCurrency (script.js lines 129-152): parse the
amount, reject NaN or amount <= 0 with the invalid-amount sentinel, then
fetch rates first if the selected from currency differs from the displayed
base, else convert locally. -/
def convertCurrency (rates : List (String × ℚ)) (fromSel toSel displayedFrom : String)
    (parsed : JSNum) : ConvertAction :=
  if parsed.isNaN || parsed.jsLe0 then .invalidAmount
  else if fromSel ≠ displayedFrom then .fetchThenConvert fromSel
  else .localConvert (performConversion rates fromSel toSel parsed)

/-- Whether a convertCurrency action issues a network request: only the
fetch-then-convert path calls fetchExchangeRates. -/
def issuesNetworkRequest : ConvertAction → Bool
  | .fetchThenConvert _ => true
  | _ => false

/-- Whether a convertCurrency action can surface a user-facing alert
dialog: only the fetch path can (via the catch handler of
fetchExchangeRates); the invalid-amount sentinel and local conversion
never alert. -/
def mayShowAlertDialog : ConvertAction → Bool
  | .fetchThenConvert _ => true
  | _ => false

/-- The fixed shortlist of widely-traded codes shown in the popular rates
table (script.js line 33). -/
def popularCurrencies : List String :=
  ["USD", "EUR", "GBP", "JPY", "CAD", "AUD", "CHF", "NZD", "HKD", "SGD"]

/-- The static code-to-name table of getCurrencyName (script.js lines
228-254). -/
def currencyNames : List (String × String) :=
  [("USD", "US Dollar"), ("EUR", "Euro"), ("GBP", "British Pound"),
   ("JPY", "Japanese Yen"), ("CAD", "Canadian Dollar"), ("AUD", "Australian Dollar"),
   ("CHF", "Swiss Franc"), ("CNY", "Chinese Yuan"), ("INR", "Indian Rupee"),
   ("BRL", "Brazilian Real"), ("NZD", "New Zealand Dollar"), ("ZAR", "South African Rand"),
   ("RUB", "Russian Ruble"), ("KRW", "South Korean Won"), ("SGD", "Singapore Dollar"),
   ("HKD", "Hong Kong Dollar"), ("MXN", "Mexican Peso"), ("SEK", "Swedish Krona"),
   ("NOK", "Norwegian Krone"), ("DKK", "Danish Krone")]

/-- Embedding of getCurrencyName (script.js lines 228-254): the display
name of a code, falling back to the code itself when unknown. -/
def getCurrencyName (code : String) : String :=
  match lookupR currencyNames code with
  | some n => n
  | none => code

/-- The effective amount used by updatePopularRates (script.js line 187):
`parseFloat(amountInput.value) || 1` replaces any falsy parse result
(NaN or 0) by 1 and keeps every other value, negative ones included. -/
def effectiveAmount (parsed : JSNum) : JSNum :=
  if parsed.falsy then .fin 1 else parsed

/-- One row of the popular rates table: currency name, code, the rate
shown to 6 decimal places, the converted amount shown to 4 decimal
places, and the raw rate value the row was built from. -/
structure PopularRow where
  name : String
  code : String
  rateText : String
  convertedText : String
  rate : ℚ
deriving DecidableEq

/-- Embedding of updatePopularRates (script.js lines 185-221): start from
the popular shortlist minus the base currency, append up to 3 known codes
outside the shortlist when the base is itself in the shortlist, keep the
first 10 candidates, and emit a row for each candidate whose rate lookup
is truthy (present and nonzero). -/
def updatePopularRates (rates : List (String × ℚ)) (currencies : List String)
    (baseCurrency : String) (parsed : JSNum) : List PopularRow :=
  let amount := effectiveAmount parsed
  let currenciesToShow :=
    popularCurrencies.filter (fun c => !(c == baseCurrency)) ++
      (if popularCurrencies.contains baseCurrency then
        (currencies.filter (fun c => !popularCurrencies.contains c)).take 3
      else [])
  (currenciesToShow.take 10).filterMap fun code =>
    match lookupR rates code with
    | none => none
    | some r =>
        if r = 0 then none
        else some { name := getCurrencyName code, code := code,
                    rateText := jsToFixed 6 r,
                    convertedText := jsToFixedN 4 (jsMulQ amount r),
                    rate := r }

/-- Insertion of a string into a sorted list of strings, used to model
`Array.prototype.sort()` on the currency codes. -/
def insertSorted (s : String) : List String → List String
  | [] => [s]
  | t :: rest => if s ≤ t then s :: t :: rest else t :: insertSorted s rest

/-- Model of `Object.keys(obj).sort()`: sort the key list
lexicographically. -/
def sortStrings (l : List String) : List String :=
  l.foldr insertSorted []

/-- The keys of a JS object modelled as an association list, in property
(insertion) order. -/
def keysOf (l : List (String × ℚ)) : List String :=
  l.map Prod.fst

/-- Outcome of one fetchExchangeRates network round trip: the request
throws (connectivity), the response has a non-success status, the body is
not parseable JSON, or JSON parsing succeeds and yields a `rates` field
that is either absent (none) or an object (some table) along with a date
string. -/
inductive FetchOutcome where
  | netFail : FetchOutcome
  | httpError : FetchOutcome
  | badJson : FetchOutcome
  | payload : Option (List (String × ℚ)) → String → FetchOutcome
deriving DecidableEq

/-- The module-level mutable state of script.js: the exchangeRates object
(none models the JS value undefined), the base currency of the last
committed snapshot (the spec's RateSnapshot.base), the lastUpdatedTime
date string, the currencies list, and the two dropdown selections. -/
structure StoreState where
  exchangeRates : Option (List (String × ℚ))
  snapshotBase : Option String
  lastUpdated : Option String
  currencies : List String
  fromSel : String
  toSel : String
deriving DecidableEq

/-- The state at page load: exchangeRates is the empty object, no
snapshot has been committed, currencies is empty and the dropdowns are
unpopulated. -/
def initialStore : StoreState :=
  { exchangeRates := some [], snapshotBase := none, lastUpdated := none,
    currencies := [], fromSel := "", toSel := "" }

/-- Embedding of fetchExchangeRates (script.js lines 60-101) as a state
transition; the Bool is true when the call succeeds (and false when it
alerts and rethrows). On a transport failure, error status or unparseable
body, nothing has been assigned yet and the state is unchanged. When the
JSON parses but has no `rates` field, the code has already executed
`exchangeRates = data.rates`, setting exchangeRates to undefined, before
`exchangeRates[baseCurrency] = 1` throws; the rest of the function is
skipped. On success the snapshot is replaced by the payload with the
self-rate synthesized, the timestamp is recorded, and on the first
successful load the currencies list and default dropdown selections are
derived. -/
def fetchStep (st : StoreState) (base : String) (o : FetchOutcome) : StoreState × Bool :=
  match o with
  | .netFail => (st, false)
  | .httpError => (st, false)
  | .badJson => (st, false)
  | .payload none _ => ({ st with exchangeRates := none }, false)
  | .payload (some r) d =>
      let tbl := setKey base 1 r
      let st1 := { st with exchangeRates := some tbl, snapshotBase := some base,
                           lastUpdated := some d }
      if st1.currencies.isEmpty then
        ({ st1 with currencies := sortStrings (keysOf tbl),
                    fromSel := base,
                    toSel := if base = "EUR" then "USD" else "EUR" }, true)
      else (st1, true)

/-- A sequence of fetchExchangeRates calls (base currency and network
outcome for each) run from the initial state. -/
def runStore (evs : List (String × FetchOutcome)) : StoreState :=
  evs.foldl (fun st e => (fetchStep st e.1 e.2).1) initialStore

/-- The state effect of the convertCurrency call that swapCurrencies ends
with: when the amount guard passes and the selected from currency differs
from the displayed one, fetchExchangeRates runs for the selected from
currency (with some network outcome); otherwise the store is untouched.
The fetchRuns flag covers both cases. -/
def convertFetchEffect (st : StoreState) (fetchRuns : Bool) (o : FetchOutcome) : StoreState :=
  if fetchRuns then (fetchStep st st.fromSel o).1 else st

/-- Embedding of swapCurrencies (script.js lines 277-286): exchange the
two dropdown selections, then run convertCurrency (which may fetch new
rates for the new from currency). -/
def swapCurrencies (st : StoreState) (fetchRuns : Bool) (o : FetchOutcome) : StoreState :=
  convertFetchEffect { st with fromSel := st.toSel, toSel := st.fromSel } fetchRuns o

/-- Civil calendar date (year, month, day) of a day count relative to
1970-01-01, by the standard days-to-civil conversion over 400-year eras;
this is what Date.prototype.toISOString exposes for a Date holding that
day. -/
def civilFromDays (z : ℤ) : ℤ × ℕ × ℕ :=
  let zs := z + 719468
  let era : ℤ := zs.fdiv 146097
  let doe : ℕ := (zs - era * 146097).toNat
  let yoe : ℕ := (doe - doe / 1460 + doe / 36524 - doe / 146096) / 365
  let doy : ℕ := doe - (365 * yoe + yoe / 4 - yoe / 100)
  let mp : ℕ := (5 * doy + 2) / 153
  let d : ℕ := doy - (153 * mp + 2) / 5 + 1
  let m : ℕ := if mp < 10 then mp + 3 else mp - 9
  (((yoe : ℤ) + era * 400) + (if m ≤ 2 then 1 else 0), m, d)

/-- Embedding of formatDate (chart.js lines 204-206): the YYYY-MM-DD part
of toISOString for the given day count. -/
def formatDate (z : ℤ) : String :=
  let c := civilFromDays z
  String.mk (padDigits 4 c.1.toNat) ++ "-" ++ String.mk (padDigits 2 c.2.1) ++ "-" ++
    String.mk (padDigits 2 c.2.2)

/-- The historical-rates request issued by loadHistoricalRates: start and
end dates as formatted in the URL, the base currency of the `from` query
parameter, and the list of target currencies of the `to` query parameter. -/
structure HistRequest where
  startDate : String
  endDate : String
  baseCur : String
  targetCurs : List String
deriving DecidableEq

/-- Embedding of loadHistoricalRates (chart.js lines 165-197) up to the
network: today is a day count, the end date is today, the start date is
today minus the lookback (setDate normalizes the rolled-back day of
month), both are formatted as YYYY-MM-DD, and the URL restricts the
series to the single target currency. -/
def loadHistoricalRates (today : ℤ) (fromCurrency toCurrency : String) (days : ℤ) : HistRequest :=
  let endDate := today
  let startDate := today - days
  { startDate := formatDate startDate, endDate := formatDate endDate,
    baseCur := fromCurrency, targetCurs := [toCurrency] }

/-- Embedding of the data extraction of displayChart (chart.js lines
214-248): the response's `rates` object maps date strings to per-currency
objects; the chart labels are its keys in order and the series is, for
each date, the value stored under the target currency. -/
def displayChart (points : List (String × List (String × ℚ))) (toCurrency : String) :
    List String × List (Option ℚ) :=
  (points.map Prod.fst, points.map fun p => lookupR p.2 toCurrency)

/-- A concrete store state with a committed USD snapshot, used to
instantiate the stateful theorems. -/
def priorStore : StoreState :=
  { exchangeRates := some [("EUR", mkRat 92 100), ("USD", 1)], snapshotBase := some "USD",
    lastUpdated := some "2024-03-09", currencies := ["EUR", "USD"],
    fromSel := "USD", toSel := "EUR" }

/-- User events that can reach the chart module: the show/hide toggle
button, a from/to currency change (routed through updateChart), and a
change of the lookback selector. -/
inductive ChartEvent where
  | toggle : ChartEvent
  | currencyChange : ChartEvent
  | timeChange : ChartEvent
deriving DecidableEq

/-- Embedding of the chart panel's visibility logic: toggleChart (chart.js
lines 136-157) hides a visible panel without fetching and shows a hidden
panel then fetches once; updateChart (lines 304-312) fetches only when the
panel is visible; the lookback selector's change handler (lines 106-111)
fetches unconditionally. The result is the new visibility and the number
of fetches issued by the event. -/
def chartStep (visible : Bool) (e : ChartEvent) : Bool × ℕ :=
  match e with
  | .toggle => if visible then (false, 0) else (true, 1)
  | .currencyChange => (visible, if visible then 1 else 0)
  | .timeChange => (visible, 1)

/-- Which chart events a user can produce in a given visibility state: the
lookback selector lives inside the chart container, which has
display none while hidden, so a change event on it requires the panel to
be visible; the toggle button and the currency dropdowns are outside the
container and are always reachable. -/
def chartEventPossible (visible : Bool) : ChartEvent → Prop
  | .timeChange => visible = true
  | _ => True

/-! Helper lemmas shared by the claim theorems. -/

/-- Looking up the key just assigned by setKey yields the assigned value. -/
theorem lookupR_setKey_self (k : String) (v : ℚ) (l : List (String × ℚ)) :
    lookupR (setKey k v l) k = some v := by
  induction l with
  | nil => simp [setKey, lookupR]
  | cons hd tl ih =>
      obtain ⟨k', v'⟩ := hd
      by_cases h : k' = k
      · simp [setKey, lookupR, h]
      · simp [setKey, lookupR, h, ih]

/-- A successful lookup comes from an entry of the association list. -/
theorem lookupR_mem {α : Type} {l : List (String × α)} {k : String} {v : α}
    (h : lookupR l k = some v) : (k, v) ∈ l := by
  induction l with
  | nil => simp [lookupR] at h
  | cons hd tl ih =>
      obtain ⟨k', v'⟩ := hd
      by_cases hk : k' = k
      · subst hk
        simp [lookupR] at h
        subst h
        exact List.mem_cons_self _ _
      · simp [lookupR, hk] at h
        exact List.mem_cons_of_mem _ (ih h)

/-- padDigits always produces exactly f characters. -/
theorem padDigits_length (f n : ℕ) : (padDigits f n).length = f := by
  simp [padDigits]

/-- jsToFixed always prints a decimal point followed by exactly f fraction
digits. -/
theorem jsToFixed_shape (f : ℕ) (q : ℚ) :
    ∃ ip fp : String, jsToFixed f q = ip ++ "." ++ fp ∧ fp.length = f :=
  ⟨_, _, rfl, padDigits_length f _⟩

/-- Claim C1, amended: for every snapshot rate table, finite positive
amount a and target code present in the table with a NONZERO stored rate
r, converting with from equal to the snapshot's base produces
convertedAmount = a * r, displayed via toFixed(4) with exactly 4 fraction
digits, and reports the rate used via toFixed(6). (The amendment: a
target present with stored rate 0 is treated as unavailable by the
falsy-rate check, see the counterexample.) -/
theorem c1_base_conversion (rates : List (String × ℚ)) (fc tc : String) (a r : ℚ)
    (ha : 0 < a) (hl : lookupR rates tc = some r) (hr : r ≠ 0) :
    performConversion rates fc tc (.fin a) =
      .converted (.fin (a * r)) (jsToFixed 4 (a * r)) (jsToFixed 6 r) fc tc
    ∧ ∃ ip fp : String, jsToFixed 4 (a * r) = ip ++ "." ++ fp ∧ fp.length = 4 := by
  refine ⟨?_, jsToFixed_shape 4 (a * r)⟩
  simp [performConversion, hl, hr, jsToFixedN, jsMulQ]

/-- Claim C1 witness: Scenario-A-shaped instance with an integer rate;
converting 100 at rate 2 displays 200.0000 and reports 2.000000. -/
theorem c1_base_conversion_witness :
    performConversion [("EUR", (2 : ℚ))] "USD" "EUR" (.fin 100) =
      .converted (.fin 200) "200.0000" "2.000000" "USD" "EUR" := by
  have h := (c1_base_conversion [("EUR", (2 : ℚ))] "USD" "EUR" 100 2 (by norm_num)
    (by decide) (by norm_num)).1
  have e : (100 : ℚ) * 2 = 200 := by norm_num
  rw [h, e]
  decide

/-- Claim C1 counterexample: with amount 1 and the target EUR present in
the table with stored rate 0, the code takes the falsy-rate branch and
displays the rate-unavailable sentinel instead of the converted amount
0.0000 the claim asks for. -/
theorem c1_zero_rate_cex :
    lookupR [("EUR", (0 : ℚ))] "EUR" = some 0
    ∧ performConversion [("EUR", (0 : ℚ))] "USD" "EUR" (.fin 1) = .rateNotAvailable
    ∧ performConversion [("EUR", (0 : ℚ))] "USD" "EUR" (.fin 1) ≠
        .converted (.fin 0) "0.0000" "0.000000" "USD" "EUR" := by
  decide

/-- One fetchExchangeRates call preserves the self-rate invariant. -/
theorem fetchStep_selfRate (st : StoreState) (base : String) (o : FetchOutcome)
    (hst : ∀ b tbl, st.snapshotBase = some b → st.exchangeRates = some tbl →
      lookupR tbl b = some 1)
    (b : String) (tbl : List (String × ℚ))
    (hb : (fetchStep st base o).1.snapshotBase = some b)
    (ht : (fetchStep st base o).1.exchangeRates = some tbl) :
    lookupR tbl b = some 1 := by
  cases o with
  | netFail => exact hst b tbl hb ht
  | httpError => exact hst b tbl hb ht
  | badJson => exact hst b tbl hb ht
  | payload rts d =>
      cases rts with
      | none => simp [fetchStep] at ht
      | some r =>
          by_cases hc : st.currencies.isEmpty <;>
            simp [fetchStep, hc] at hb ht <;>
            · subst hb
              rw [← ht]
              exact lookupR_setKey_self base 1 r

theorem runStore_selfRate (evs : List (String × FetchOutcome)) (st : StoreState)
    (hst : ∀ b tbl, st.snapshotBase = some b → st.exchangeRates = some tbl →
      lookupR tbl b = some 1)
    (b : String) (tbl : List (String × ℚ))
    (hb : (evs.foldl (fun s e => (fetchStep s e.1 e.2).1) st).snapshotBase = some b)
    (ht : (evs.foldl (fun s e => (fetchStep s e.1 e.2).1) st).exchangeRates = some tbl) :
    lookupR tbl b = some 1 := by
  induction evs generalizing st with
  | nil => exact hst b tbl hb ht
  | cons e rest ih =>
      rw [List.foldl_cons] at hb ht
      exact ih _ (fetchStep_selfRate st e.1 e.2 hst) hb ht

/-- Claim C2: after every successful fetchExchangeRates(base) call, and
hence in every state reachable by any sequence of fetches, a defined rate
table satisfies rates[base] = 1 for the base of the committed snapshot:
the self-rate omitted by the provider is synthesized by the assignment
`exchangeRates[baseCurrency] = 1`. -/
theorem c2_selfRate_invariant (evs : List (String × FetchOutcome)) (b : String)
    (tbl : List (String × ℚ)) (hb : (runStore evs).snapshotBase = some b)
    (ht : (runStore evs).exchangeRates = some tbl) :
    lookupR tbl b = some 1 :=
  runStore_selfRate evs initialStore
    (by intro b0 tbl0 hb0 _; simp [initialStore] at hb0) b tbl hb ht

/-- Claim C2 witness: one successful fetch of base USD returning only a
EUR rate commits a table whose USD self-rate is 1. -/
theorem c2_selfRate_invariant_witness :
    lookupR [("EUR", (2 : ℚ)), ("USD", 1)] "USD" = some 1 :=
  c2_selfRate_invariant [("USD", .payload (some [("EUR", (2 : ℚ))]) "2024-03-10")]
    "USD" [("EUR", (2 : ℚ)), ("USD", 1)] (by decide) (by decide)

/-- Claim C3, amended: every amount whose parse is NaN or compares <= 0
in JS (zero, negative, or -Infinity) yields the invalid-amount sentinel,
issues no network request, and cannot surface an alert dialog. (The
amendment: the guard `isNaN(amount) || amount <= 0` does not test
finiteness, so a positive infinite parse such as the input 1e400 passes
it and proceeds to a conversion, see the counterexample.) -/
theorem c3_invalid_amount (rates : List (String × ℚ)) (fs ts df : String) (parsed : JSNum)
    (h : parsed.isNaN = true ∨ parsed.jsLe0 = true) :
    convertCurrency rates fs ts df parsed = .invalidAmount
    ∧ issuesNetworkRequest (convertCurrency rates fs ts df parsed) = false
    ∧ mayShowAlertDialog (convertCurrency rates fs ts df parsed) = false := by
  have hg : (parsed.isNaN || parsed.jsLe0) = true := by
    rcases h with h | h <;> simp [h]
  simp [convertCurrency, hg, issuesNetworkRequest, mayShowAlertDialog]

/-- Claim C3 witness: Scenario C, amount -5 yields the invalid-amount
sentinel with no network request and no dialog. -/
theorem c3_invalid_amount_witness :
    convertCurrency [("EUR", (2 : ℚ))] "USD" "EUR" "USD" (.fin (-5)) = .invalidAmount
    ∧ issuesNetworkRequest
        (convertCurrency [("EUR", (2 : ℚ))] "USD" "EUR" "USD" (.fin (-5))) = false
    ∧ mayShowAlertDialog
        (convertCurrency [("EUR", (2 : ℚ))] "USD" "EUR" "USD" (.fin (-5))) = false :=
  c3_invalid_amount [("EUR", (2 : ℚ))] "USD" "EUR" "USD" (.fin (-5)) (Or.inr (by decide))

/-- Claim C3 counterexample: a positive infinite amount (parseFloat of an
input like 1e400) is not a finite positive number, yet the guard passes
it: the result is a local conversion displaying Infinity, not the
invalid-amount sentinel. -/
theorem c3_infinite_amount_cex :
    convertCurrency [("EUR", mkRat 1 2)] "USD" "EUR" "USD" .inf ≠ .invalidAmount
    ∧ convertCurrency [("EUR", mkRat 1 2)] "USD" "EUR" "USD" .inf =
        .localConvert (.converted .inf "Infinity" "0.500000" "USD" "EUR") := by
  decide

/-- Claim C4, amended: with a finite positive amount, the conversion
yields the rate-unavailable sentinel exactly when the rate lookup for the
target is falsy: the target is absent from the table OR it is present
with stored rate 0. (The amendment: the claim's "only when absent" fails
for a present zero rate, see the counterexample.) -/
theorem c4_rate_unavailable (rates : List (String × ℚ)) (fc tc : String) (a : ℚ)
    (ha : 0 < a) :
    performConversion rates fc tc (.fin a) = .rateNotAvailable
      ↔ (lookupR rates tc = none ∨ lookupR rates tc = some 0) := by
  cases h : lookupR rates tc with
  | none => simp [performConversion, h]
  | some r =>
      by_cases hr : r = 0
      · subst hr
        simp [performConversion, h]
      · simp [performConversion, h, hr]

/-- Claim C4 witness: Scenario B, converting to GBP with GBP absent from
the snapshot yields the rate-unavailable sentinel. -/
theorem c4_rate_unavailable_witness :
    performConversion [("USD", (1 : ℚ))] "USD" "GBP" (.fin 100) = .rateNotAvailable :=
  (c4_rate_unavailable [("USD", (1 : ℚ))] "USD" "GBP" 100 (by norm_num)).mpr
    (Or.inl (by decide))

/-- Claim C4 counterexample: the target JPY is present in the table with
a stored rate value (0), yet the sentinel is produced, refuting "yields
it only when to is absent". -/
theorem c4_zero_rate_cex :
    lookupR [("JPY", (0 : ℚ))] "JPY" = some 0
    ∧ performConversion [("JPY", (0 : ℚ))] "EUR" "JPY" (.fin 2) = .rateNotAvailable := by
  decide

/-- Claim C5, evaluated at the failing input: from a store holding a
committed USD snapshot, a connectivity failure, a non-success status and
an unparseable body all leave the state unchanged while propagating the
failure; but a parseable 200 payload lacking a `rates` field (a malformed
payload) also fails — and it destroys the prior snapshot, because
`exchangeRates = data.rates` runs before any validation and sets the
table to undefined. -/
theorem c5_failure_paths :
    (fetchStep priorStore "USD" .netFail).1 = priorStore
    ∧ (fetchStep priorStore "USD" .netFail).2 = false
    ∧ (fetchStep priorStore "USD" .httpError).1 = priorStore
    ∧ (fetchStep priorStore "USD" .httpError).2 = false
    ∧ (fetchStep priorStore "USD" .badJson).1 = priorStore
    ∧ (fetchStep priorStore "USD" .badJson).2 = false
    ∧ (fetchStep priorStore "USD" (.payload none "2024-03-10")).2 = false
    ∧ (fetchStep priorStore "USD" (.payload none "2024-03-10")).1.exchangeRates = none
    ∧ (fetchStep priorStore "USD" (.payload none "2024-03-10")).1.exchangeRates ≠
        priorStore.exchangeRates := by
  decide

/-- A fetchExchangeRates call never touches the dropdown selections or
the currencies list once the currencies list is populated. -/
theorem fetchStep_preserves_selections (st : StoreState) (base : String) (o : FetchOutcome)
    (h : st.currencies ≠ []) :
    (fetchStep st base o).1.fromSel = st.fromSel
    ∧ (fetchStep st base o).1.toSel = st.toSel
    ∧ (fetchStep st base o).1.currencies = st.currencies := by
  have hc : st.currencies.isEmpty = false := by
    cases hcc : st.currencies with
    | nil => exact absurd hcc h
    | cons a l => rfl
  cases o with
  | netFail => exact ⟨rfl, rfl, rfl⟩
  | httpError => exact ⟨rfl, rfl, rfl⟩
  | badJson => exact ⟨rfl, rfl, rfl⟩
  | payload rts d =>
      cases rts with
      | none => exact ⟨rfl, rfl, rfl⟩
      | some r => simp [fetchStep, hc]

/-- One swapCurrencies call exchanges the selections and keeps the
currencies list, whatever its trailing convertCurrency does. -/
theorem swapCurrencies_sel (st : StoreState) (h : st.currencies ≠ []) (f : Bool)
    (o : FetchOutcome) :
    (swapCurrencies st f o).fromSel = st.toSel
    ∧ (swapCurrencies st f o).toSel = st.fromSel
    ∧ (swapCurrencies st f o).currencies = st.currencies := by
  unfold swapCurrencies convertFetchEffect
  by_cases hf : f
  · subst hf
    simp only [if_true]
    have := fetchStep_preserves_selections
      { st with fromSel := st.toSel, toSel := st.fromSel }
      { st with fromSel := st.toSel, toSel := st.fromSel }.fromSel o (by simpa using h)
    simpa using this
  · simp [hf]

/-- Claim C6: for every selected pair, swapping twice restores the
original from/to selection, whether or not the inner convertCurrency
calls fetch rates and whatever those fetches return (in particular under
no intervening snapshot failure), provided the dropdowns have been
populated (currencies nonempty, which holds from the first successful
snapshot on). -/
theorem c6_swap_roundtrip (st : StoreState) (h : st.currencies ≠ [])
    (f1 f2 : Bool) (o1 o2 : FetchOutcome) :
    (swapCurrencies (swapCurrencies st f1 o1) f2 o2).fromSel = st.fromSel
    ∧ (swapCurrencies (swapCurrencies st f1 o1) f2 o2).toSel = st.toSel := by
  obtain ⟨h1, h2, h3⟩ := swapCurrencies_sel st h f1 o1
  have h' : (swapCurrencies st f1 o1).currencies ≠ [] := by rw [h3]; exact h
  obtain ⟨g1, g2, _⟩ := swapCurrencies_sel (swapCurrencies st f1 o1) h' f2 o2
  exact ⟨g1.trans h2, g2.trans h1⟩

/-- Claim C6 witness: from the USD/EUR selection, a swap whose
convertCurrency fetches successfully followed by a swap that converts
locally restores USD/EUR. -/
theorem c6_swap_roundtrip_witness :
    (swapCurrencies
        (swapCurrencies priorStore true (.payload (some [("GBP", (2 : ℚ))]) "2024-03-10"))
        false .netFail).fromSel = "USD"
    ∧ (swapCurrencies
        (swapCurrencies priorStore true (.payload (some [("GBP", (2 : ℚ))]) "2024-03-10"))
        false .netFail).toSel = "EUR" :=
  c6_swap_roundtrip priorStore (by decide) true false
    (.payload (some [("GBP", (2 : ℚ))]) "2024-03-10") .netFail

/-- Destructor for membership in the popular rates table: every row comes
from a candidate code of the shortlist-minus-base plus the at-most-3
backfill, truncated to 10, whose rate lookup is present and nonzero, and
carries the fields updatePopularRates builds. -/
theorem mem_updatePopularRates {rates : List (String × ℚ)} {currencies : List String}
    {baseCurrency : String} {parsed : JSNum} {row : PopularRow}
    (h : row ∈ updatePopularRates rates currencies baseCurrency parsed) :
    ∃ r, lookupR rates row.code = some r ∧ r ≠ 0 ∧ row.rate = r
      ∧ row.convertedText = jsToFixedN 4 (jsMulQ (effectiveAmount parsed) r)
      ∧ row.code ∈
          (popularCurrencies.filter (fun c => !(c == baseCurrency)) ++
            (if popularCurrencies.contains baseCurrency then
              (currencies.filter (fun c => !popularCurrencies.contains c)).take 3
            else [])).take 10 := by
  simp only [updatePopularRates, List.mem_filterMap] at h
  obtain ⟨code, hmem, hf⟩ := h
  split at hf
  · simp at hf
  · rename_i r hl
    by_cases hr : r = 0
    · rw [if_pos hr] at hf; simp at hf
    · rw [if_neg hr] at hf
      obtain rfl := Option.some.inj hf
      exact ⟨r, hl, hr, rfl, rfl, hmem⟩

/-- Claim C7: for every base, snapshot and amount, the popular rates
table excludes the base from its rows; a row whose code is outside the
fixed shortlist only occurs when the base is in the shortlist and then
comes from the at-most-3 backfill drawn from the known currency list; the
table has at most 10 rows; and, when the snapshot's rates are
non-negative, every row carries a non-negative rate taken from the
snapshot. -/
theorem c7_popular_rates (rates : List (String × ℚ)) (currencies : List String)
    (base : String) (parsed : JSNum) (hnn : ∀ p ∈ rates, 0 ≤ p.2) :
    (∀ row ∈ updatePopularRates rates currencies base parsed, row.code ≠ base)
    ∧ (updatePopularRates rates currencies base parsed).length ≤ 10
    ∧ (∀ row ∈ updatePopularRates rates currencies base parsed,
        row.code ∉ popularCurrencies →
          base ∈ popularCurrencies ∧
          row.code ∈ (currencies.filter (fun c => !popularCurrencies.contains c)).take 3)
    ∧ ((currencies.filter (fun c => !popularCurrencies.contains c)).take 3).length ≤ 3
    ∧ (∀ row ∈ updatePopularRates rates currencies base parsed,
        lookupR rates row.code = some row.rate ∧ 0 ≤ row.rate) := by
  have hcases : ∀ row ∈ updatePopularRates rates currencies base parsed,
      (row.code ∈ popularCurrencies ∧ row.code ≠ base)
      ∨ (base ∈ popularCurrencies ∧ row.code ∉ popularCurrencies
          ∧ row.code ∈ (currencies.filter (fun c => !popularCurrencies.contains c)).take 3) := by
    intro row hrow
    obtain ⟨r, _, _, _, _, hcode⟩ := mem_updatePopularRates hrow
    have hcode' := List.mem_of_mem_take hcode
    rcases List.mem_append.mp hcode' with hA | hB
    · obtain ⟨hp, hb⟩ := List.mem_filter.mp hA
      left
      refine ⟨hp, ?_⟩
      simpa using hb
    · by_cases hbase : popularCurrencies.contains base
      · rw [if_pos hbase] at hB
        have hout : row.code ∉ popularCurrencies := by
          have := (List.mem_filter.mp (List.mem_of_mem_take hB)).2
          simpa using this
        exact Or.inr ⟨by simpa using hbase, hout, hB⟩
      · rw [if_neg hbase] at hB
        simp at hB
  refine ⟨?_, ?_, ?_, ?_, ?_⟩
  · intro row hrow
    rcases hcases row hrow with ⟨_, hne⟩ | ⟨hbp, hout, _⟩
    · exact hne
    · intro heq
      exact hout (heq ▸ hbp)
  · calc (updatePopularRates rates currencies base parsed).length
        ≤ _ := List.length_filterMap_le _ _
      _ ≤ 10 := by
        simp
  · intro row hrow hout
    rcases hcases row hrow with ⟨hp, _⟩ | ⟨hbp, _, htake⟩
    · exact absurd hp hout
    · exact ⟨hbp, htake⟩
  · simp
  · intro row hrow
    obtain ⟨r, hl, _, hrate, _, _⟩ := mem_updatePopularRates hrow
    refine ⟨hrate ▸ hl, ?_⟩
    have := hnn (row.code, r) (lookupR_mem hl)
    rw [hrate]
    exact this

/-- Claim C7 witness: with a snapshot of one non-negative EUR rate, base
USD and amount 1, the table has at most 10 rows and the backfill is at
most 3 codes. -/
theorem c7_popular_rates_witness :
    (updatePopularRates [("EUR", (2 : ℚ))] ["EUR", "USD"] "USD" (.fin 1)).length ≤ 10
    ∧ ((List.filter (fun c => !popularCurrencies.contains c) ["EUR", "USD"]).take 3).length
        ≤ 3 :=
  ⟨(c7_popular_rates [("EUR", (2 : ℚ))] ["EUR", "USD"] "USD" (.fin 1) (by decide)).2.1,
   (c7_popular_rates [("EUR", (2 : ℚ))] ["EUR", "USD"] "USD" (.fin 1) (by decide)).2.2.2.1⟩

/-- Claim C8: every loadHistoricalRates call requests the range from
today minus the lookback to today, both formatted as YYYY-MM-DD, and
restricts the request to the single target currency; a successful
response with n daily points renders a series of exactly n values with
the labels in the response's date order. Concretely, on day 2024-03-10 a
7-day lookback requests 2024-03-03 to 2024-03-10, and a 6-point response
renders 6 values. -/
theorem c8_historical_series :
    (∀ (today : ℤ) (fc tc : String) (days : ℤ),
        loadHistoricalRates today fc tc days =
          { startDate := formatDate (today - days), endDate := formatDate today,
            baseCur := fc, targetCurs := [tc] })
    ∧ (∀ (points : List (String × List (String × ℚ))) (tc : String),
        (displayChart points tc).2.length = points.length
        ∧ (displayChart points tc).1 = points.map Prod.fst)
    ∧ loadHistoricalRates 19792 "USD" "EUR" 7 =
        { startDate := "2024-03-03", endDate := "2024-03-10", baseCur := "USD",
          targetCurs := ["EUR"] }
    ∧ (displayChart
        [("2024-03-04", [("EUR", (1 : ℚ))]), ("2024-03-05", [("EUR", (1 : ℚ))]),
         ("2024-03-06", [("EUR", (1 : ℚ))]), ("2024-03-07", [("EUR", (1 : ℚ))]),
         ("2024-03-08", [("EUR", (1 : ℚ))]), ("2024-03-10", [("EUR", (1 : ℚ))])]
        "EUR").2.length = 6 := by
  refine ⟨fun _ _ _ _ => rfl, fun points tc => ⟨?_, rfl⟩, by decide, rfl⟩
  simp [displayChart]

/-- Claim C9: the chart module never fetches while the panel is hidden: a
fetch-issuing step leaves the panel visible, the only user events
possible while hidden (toggle and currency changes — the lookback
selector is inside the hidden container and cannot fire) fetch nothing
except the showing toggle, hiding fetches nothing, and a show-then-hide
toggle pair issues exactly one fetch. -/
theorem c9_lazy_chart :
    (∀ (visible : Bool) (e : ChartEvent), chartEventPossible visible e →
        0 < (chartStep visible e).2 → (chartStep visible e).1 = true)
    ∧ (∀ e : ChartEvent, chartEventPossible false e → e ≠ .toggle →
        (chartStep false e).2 = 0)
    ∧ (chartStep true .toggle).2 = 0
    ∧ (chartStep false .toggle).2 + (chartStep (chartStep false .toggle).1 .toggle).2 = 1 := by
  refine ⟨?_, ?_, rfl, rfl⟩
  · intro visible e hp hf
    cases e <;> cases visible <;> simp_all [chartStep, chartEventPossible]
  · intro e hp hne
    cases e with
    | toggle => exact absurd rfl hne
    | currencyChange => rfl
    | timeChange => exact absurd hp (by simp [chartEventPossible])

/-- Claim C9 witness: while hidden, a currency-pair change issues no
fetch. -/
theorem c9_lazy_chart_witness : (chartStep false .currencyChange).2 = 0 :=
  c9_lazy_chart.2.1 .currencyChange trivial (by decide)

/-- Claim C10 (implicit): the popular-rates amount falls back to 1 when
the input parses to NaN or to 0 (JS falsiness of `parseFloat(...) || 1`),
a negative parsed amount is kept as-is, the effective amount is never NaN
nor zero, and every row's converted text is computed from that effective
amount. -/
theorem c10_amount_fallback :
    effectiveAmount .nan = .fin 1
    ∧ effectiveAmount (.fin 0) = .fin 1
    ∧ (∀ q : ℚ, q < 0 → effectiveAmount (.fin q) = .fin q)
    ∧ (∀ a : JSNum, effectiveAmount a ≠ .nan ∧ effectiveAmount a ≠ .fin 0)
    ∧ (∀ (rates : List (String × ℚ)) (currencies : List String) (base : String)
        (parsed : JSNum) (row : PopularRow),
        row ∈ updatePopularRates rates currencies base parsed →
          row.convertedText = jsToFixedN 4 (jsMulQ (effectiveAmount parsed) row.rate)) := by
  refine ⟨rfl, by decide, ?_, ?_, ?_⟩
  · intro q hq
    simp [effectiveAmount, JSNum.falsy, ne_of_lt hq]
  · intro a
    cases a with
    | nan => exact ⟨by decide, by decide⟩
    | inf => exact ⟨by decide, by decide⟩
    | ninf => exact ⟨by decide, by decide⟩
    | fin q =>
        by_cases hq : q = 0
        · subst hq
          exact ⟨by decide, by decide⟩
        · constructor
          · simp [effectiveAmount, JSNum.falsy, hq]
          · simp [effectiveAmount, JSNum.falsy, hq]
  · intro rates currencies base parsed row hrow
    obtain ⟨r, _, _, hrate, hconv, _⟩ := mem_updatePopularRates hrow
    rw [hconv, hrate]

/-- Claim C10 witness: a negative amount -2 is kept as-is, and the EUR
row built from an infinite (truthy) amount shows the converted text
computed from that same effective amount. -/
theorem c10_amount_fallback_witness :
    effectiveAmount (.fin (-2)) = .fin (-2)
    ∧ ({ name := "Euro", code := "EUR", rateText := "2.000000",
         convertedText := "Infinity", rate := 2 } : PopularRow).convertedText =
        jsToFixedN 4 (jsMulQ (effectiveAmount .inf) (2 : ℚ)) :=
  ⟨c10_amount_fallback.2.2.1 (-2) (by norm_num),
   c10_amount_fallback.2.2.2.2 [("EUR", (2 : ℚ))] [] "USD" .inf
     { name := "Euro", code := "EUR", rateText := "2.000000",
       convertedText := "Infinity", rate := 2 } (by decide)⟩

end CurrencyFlow
